import Mathlib

/-!
Verification of the cloud networking convergence layer of a cluster-api
infrastructure provider.  The Go package `pkg/cloud` (file `network.go`) is
shallowly embedded: the CloudStack remote client is a record of response
functions, every operation returns its (multi-)error, the updated cluster
object and the list of remote calls it issued, and machine integers are
modelled as `Int`.
-/

namespace Cloud

/-- Character-list prefix test, used to embed Go `strings.Contains`. -/
def matchesAt : List Char → List Char → Bool
  | [], _ => true
  | _ :: _, [] => false
  | a :: as, b :: bs => a == b && matchesAt as bs

/-- Substring search on character lists. -/
def subIn (needle : List Char) : List Char → Bool
  | [] => needle.isEmpty
  | c :: cs => matchesAt needle (c :: cs) || subIn needle cs

/-- Embedding of Go `strings.Contains s sub`. -/
def stringsContains (s sub : String) : Bool :=
  subIn sub.toList s.toList

/-- Rendering of `github.com/pkg/errors` `errors.Wrapf err msg`: the message
followed by the cause. -/
def wrapf (e msg : String) : String := msg ++ ": " ++ e

/-- A `go-multierror` value: the list of appended causes; `[]` plays the
role of a nil Go error. -/
abbrev MultiErr := List String

/-- Rendering of a multierror via `Error()`: every cause appears in the
printed text. -/
def errorText (errs : MultiErr) : String := String.intercalate "; " errs

/-- Go `clusterv1.APIEndpoint`. -/
structure APIEndpoint where
  Host : String
  Port : Int
deriving DecidableEq

/-- The fields of `infrav1.CloudStackClusterSpec` used by `network.go`. -/
structure CloudStackClusterSpec where
  Zone : String
  Network : String
  ControlPlaneEndpoint : APIEndpoint
  Account : String
deriving DecidableEq

/-- The fields of `infrav1.CloudStackClusterStatus` used by `network.go`. -/
structure CloudStackClusterStatus where
  ZoneID : String
  NetworkID : String
  NetworkType : String
  PublicIPID : String
  LBRuleID : String
  DomainID : String
deriving DecidableEq

/-- Go `infrav1.CloudStackCluster`, restricted to spec and status. -/
structure CloudStackCluster where
  Spec : CloudStackClusterSpec
  Status : CloudStackClusterStatus
deriving DecidableEq

/-- Go `cloudstack.Network`; the Go field `Type` is rendered `Typ` because
`Type` is reserved in Lean. -/
structure Network where
  Id : String
  Typ : String
deriving DecidableEq

/-- Go `cloudstack.CreateNetworkResponse`, restricted to the fields read. -/
structure CreateNetworkResponse where
  Id : String
  Typ : String
deriving DecidableEq

/-- Go `cloudstack.PublicIpAddress`, restricted to the fields read. -/
structure PublicIpAddress where
  Id : String
  Ipaddress : String
  Allocated : String
  Associatednetworkid : String
deriving DecidableEq

/-- Go `cloudstack.ListPublicIpAddressesResponse`. -/
structure ListPublicIpAddressesResponse where
  Count : Int
  PublicIpAddresses : List PublicIpAddress
deriving DecidableEq

/-- Go `cloudstack.LoadBalancerRule`, restricted to the fields read. -/
structure LoadBalancerRule where
  Id : String
  Publicport : String
deriving DecidableEq

/-- Go `cloudstack.LoadBalancerRuleInstance`, restricted to the fields read. -/
structure LoadBalancerRuleInstance where
  Id : String
deriving DecidableEq

/-- Parameter object of `ListPublicIpAddresses`; an empty string models an
unset optional parameter, matching `setIfNotEmpty`. -/
structure ListPublicIpAddressesParams where
  allocatedonly : Bool
  account : String
  domainid : String
  ipaddress : String
deriving DecidableEq

/-- Parameter object of `AssociateIpAddress`. -/
structure AssociateIpAddressParams where
  networkid : String
  ipaddress : String
  account : String
  domainid : String
deriving DecidableEq

/-- Parameter object of `CreateEgressFirewallRule`. -/
structure CreateEgressFirewallRuleParams where
  networkid : String
  protocol : String
deriving DecidableEq

/-- Parameter object of `CreateNetwork`. -/
structure CreateNetworkParams where
  name : String
  displaytext : String
  networkofferingid : String
  zoneid : String
  account : String
  domainid : String
deriving DecidableEq

/-- Parameter object of `ListLoadBalancerRules`. -/
structure ListLoadBalancerRulesParams where
  publicipid : String
  account : String
  domainid : String
deriving DecidableEq

/-- Parameter object of `AssignToLoadBalancerRule`. -/
structure AssignToLoadBalancerRuleParams where
  id : String
  virtualmachineids : List String
deriving DecidableEq

/-- One remote call issued against the cloud platform, with its arguments. -/
inductive RemoteCall where
  | getNetworkID (name : String)
  | getNetworkByID (id : String)
  | getNetworkOfferingID (name : String)
  | createNetwork (p : CreateNetworkParams)
  | listPublicIpAddresses (p : ListPublicIpAddressesParams)
  | associateIpAddress (p : AssociateIpAddressParams)
  | createEgressFirewallRule (p : CreateEgressFirewallRuleParams)
  | listLoadBalancerRules (p : ListLoadBalancerRulesParams)
  | listLoadBalancerRuleInstances (id : String)
  | assignToLoadBalancerRule (p : AssignToLoadBalancerRuleParams)
deriving DecidableEq

/-- The typed synchronous remote client (`c.cs` in the Go code): for every
call, the response the cloud platform would give.  Go `(T, int, error)`
results become `T × Int × Option String`, a nil error being `none`. -/
structure CloudStackAPI where
  GetNetworkID : String → String × Int × Option String
  GetNetworkByID : String → Network × Int × Option String
  GetNetworkOfferingID : String → String × Int × Option String
  CreateNetwork : CreateNetworkParams → CreateNetworkResponse × Option String
  ListPublicIpAddresses : ListPublicIpAddressesParams → ListPublicIpAddressesResponse × Option String
  AssociateIpAddress : AssociateIpAddressParams → Option String
  CreateEgressFirewallRule : CreateEgressFirewallRuleParams → Option String
  ListLoadBalancerRules : ListLoadBalancerRulesParams → List LoadBalancerRule × Option String
  ListLoadBalancerRuleInstances : String → List LoadBalancerRuleInstance × Option String
  AssignToLoadBalancerRule : AssignToLoadBalancerRuleParams → Option String

/-- Constant `NetOffering` of `network.go`. -/
def NetOffering : String := "DefaultIsolatedNetworkOfferingWithSourceNatService"

/-- Constant `K8sDefaultAPIPort` of `network.go`. -/
def K8sDefaultAPIPort : Int := 6443

/-- Constant `NetworkTypeIsolated` of `network.go`. -/
def NetworkTypeIsolated : String := "Isolated"

/-- Constant `NetworkTypeShared` of `network.go`. -/
def NetworkTypeShared : String := "Shared"

/-- Go helper `setIfNotEmpty`: apply a parameter setter only when the value
is a non-empty string. -/
def setIfNotEmpty {α : Type} (s : String) (set : String → α → α) (p : α) : α :=
  if s ≠ "" then set s p else p

/-- Embedding of `client.ResolveNetwork` (network.go lines 36-58).  Returns
the multierror, the cluster after any status writes, and the remote calls
issued. -/
def ResolveNetwork (cs : CloudStackAPI) (c : CloudStackCluster) :
    MultiErr × CloudStackCluster × List RemoteCall :=
  let s1 : MultiErr × String :=
    match cs.GetNetworkID c.Spec.Network with
    | (_, _, some e) =>
        ([wrapf e ("Could not get Network ID from " ++ c.Spec.Network ++ ".")], c.Spec.Network)
    | (networkID, count, none) =>
        if count ≠ 1 then
          (["Expected 1 Network with name " ++ c.Spec.Network ++ ", but got " ++
              toString count ++ "."], networkID)
        else ([], networkID)
  let retErr := s1.1
  let networkID := s1.2
  let calls : List RemoteCall :=
    [RemoteCall.getNetworkID c.Spec.Network, RemoteCall.getNetworkByID networkID]
  match cs.GetNetworkByID networkID with
  | (_, _, some e) =>
      (retErr ++ [wrapf e ("Could not get Network by ID " ++ networkID ++ ".")], c, calls)
  | (networkDetails, count, none) =>
      if count ≠ 1 then
        (retErr ++ ["Expected 1 Network with UUID " ++ networkID ++ ", but got " ++
            toString count ++ "."], c, calls)
      else
        ([], { c with Status := { c.Status with
                 NetworkID := networkID, NetworkType := networkDetails.Typ } }, calls)

/-- Embedding of `client.GetOrCreateNetwork` (network.go lines 60-89). -/
def GetOrCreateNetwork (cs : CloudStackAPI) (c : CloudStackCluster) :
    MultiErr × CloudStackCluster × List RemoteCall :=
  let r := ResolveNetwork cs c
  if r.1 = [] then r
  else if ! stringsContains (errorText r.1) ("No match found") then r
  else
    let c1 := r.2.1
    let calls1 := r.2.2 ++ [RemoteCall.getNetworkOfferingID NetOffering]
    match cs.GetNetworkOfferingID NetOffering with
    | (_, _, some e) => ([e], c1, calls1)
    | (offeringId, count, none) =>
      if count ≠ 1 then (["found more than one network offering."], c1, calls1)
      else
        let p : CreateNetworkParams :=
          setIfNotEmpty c1.Status.DomainID (fun v q => { q with domainid := v })
            (setIfNotEmpty c1.Spec.Account (fun v q => { q with account := v })
              { name := c1.Spec.Network, displaytext := c1.Spec.Network,
                networkofferingid := offeringId, zoneid := c1.Status.ZoneID,
                account := "", domainid := "" })
        let calls2 := calls1 ++ [RemoteCall.createNetwork p]
        match cs.CreateNetwork p with
        | (_, some e) => ([e], c1, calls2)
        | (resp, none) =>
            ([], { c1 with Status := { c1.Status with
                     NetworkID := resp.Id, NetworkType := resp.Typ } }, calls2)

/-- The parameter object `ResolvePublicIPDetails` builds: allocated-only
false, optional account/domain scoping, and the endpoint host as address
filter when one was already chosen. -/
def listPublicIpParams (c : CloudStackCluster) : ListPublicIpAddressesParams :=
  let p :=
    setIfNotEmpty c.Status.DomainID (fun v q => { q with domainid := v })
      (setIfNotEmpty c.Spec.Account (fun v q => { q with account := v })
        ({ allocatedonly := false, account := "", domainid := "", ipaddress := "" } :
          ListPublicIpAddressesParams))
  if c.Spec.ControlPlaneEndpoint.Host ≠ "" then
    { p with ipaddress := c.Spec.ControlPlaneEndpoint.Host }
  else p

/-- Embedding of `client.ResolvePublicIPDetails` (network.go lines 91-107).
The result is the resolved public IP or the error text. -/
def ResolvePublicIPDetails (cs : CloudStackAPI) (c : CloudStackCluster) :
    Except String PublicIpAddress × List RemoteCall :=
  let p := listPublicIpParams c
  let calls := [RemoteCall.listPublicIpAddresses p]
  match cs.ListPublicIpAddresses p with
  | (_, some e) => (Except.error e, calls)
  | (publicAddresses, none) =>
    if publicAddresses.Count > 0 then
      match publicAddresses.PublicIpAddresses with
      | a :: _ => (Except.ok a, calls)
      | [] => (Except.error ("index out of range"), calls)
    else (Except.error ("no public addresses found"), calls)

/-- The parameter object `AssociatePublicIpAddress` builds for the
associate call: the status network identity, the (just recorded) endpoint
host, and optional account/domain scoping. -/
def associateIpParams (c1 : CloudStackCluster) : AssociateIpAddressParams :=
  setIfNotEmpty c1.Status.DomainID (fun v q => { q with domainid := v })
    (setIfNotEmpty c1.Spec.Account (fun v q => { q with account := v })
      { networkid := c1.Status.NetworkID,
        ipaddress := c1.Spec.ControlPlaneEndpoint.Host,
        account := "", domainid := "" })

/-- Embedding of `client.AssociatePublicIpAddress` (network.go lines
110-134).  Note that the Go code writes the control-plane endpoint host and
the status PublicIPID right after the resolve step, before the associate
call is issued. -/
def AssociatePublicIpAddress (cs : CloudStackAPI) (c : CloudStackCluster) :
    Option String × CloudStackCluster × List RemoteCall :=
  match ResolvePublicIPDetails cs c with
  | (Except.error e, calls) => (some e, c, calls)
  | (Except.ok publicAddress, calls) =>
    let c1 := { c with
      Spec := { c.Spec with ControlPlaneEndpoint :=
        { c.Spec.ControlPlaneEndpoint with Host := publicAddress.Ipaddress } },
      Status := { c.Status with PublicIPID := publicAddress.Id } }
    if publicAddress.Allocated ≠ "" ∧ publicAddress.Associatednetworkid = c1.Status.NetworkID then
      (none, c1, calls)
    else
      let p := associateIpParams c1
      match cs.AssociateIpAddress p with
      | some e => (some e, c1, calls ++ [RemoteCall.associateIpAddress p])
      | none => (none, c1, calls ++ [RemoteCall.associateIpAddress p])

/-- Embedding of `client.OpenFirewallRules` (network.go lines 136-143). -/
def OpenFirewallRules (cs : CloudStackAPI) (c : CloudStackCluster) :
    Option String × List RemoteCall :=
  let p : CreateEgressFirewallRuleParams := { networkid := c.Status.NetworkID, protocol := "tcp" }
  let retErr := cs.CreateEgressFirewallRule p
  let retErr :=
    match retErr with
    | some e => if stringsContains e ("There is already") then none else some e
    | none => none
  (retErr, [RemoteCall.createEgressFirewallRule p])

/-- The parameter object `ResolveLoadBalancerRuleDetails` builds: the
status public-IP identity and optional account/domain scoping. -/
def listLBRulesParams (c : CloudStackCluster) : ListLoadBalancerRulesParams :=
  setIfNotEmpty c.Status.DomainID (fun v q => { q with domainid := v })
    (setIfNotEmpty c.Spec.Account (fun v q => { q with account := v })
      { publicipid := c.Status.PublicIPID, account := "", domainid := "" })

/-- The first-match loop over load-balancer rules in
`ResolveLoadBalancerRuleDetails`. -/
def findLoadBalancerRule (publicport : String) : List LoadBalancerRule → Option LoadBalancerRule
  | [] => none
  | rule :: rest =>
      if rule.Publicport = publicport then some rule else findLoadBalancerRule publicport rest

/-- Embedding of `client.ResolveLoadBalancerRuleDetails` (network.go lines
145-161). -/
def ResolveLoadBalancerRuleDetails (cs : CloudStackAPI) (c : CloudStackCluster) :
    Option String × CloudStackCluster × List RemoteCall :=
  let p := listLBRulesParams c
  let calls := [RemoteCall.listLoadBalancerRules p]
  match cs.ListLoadBalancerRules p with
  | (_, some e) => (some e, c, calls)
  | (loadBalancerRules, none) =>
    match findLoadBalancerRule (toString c.Spec.ControlPlaneEndpoint.Port) loadBalancerRules with
    | some rule => (none, { c with Status := { c.Status with LBRuleID := rule.Id } }, calls)
    | none => (some ("no load balancer rule found"), c, calls)

/-- The membership loop of `AssignVMToLoadBalancerRule`: whether the target
instance identity already appears in the backend list. -/
def lbInstancesContain (instanceID : String) : List LoadBalancerRuleInstance → Bool
  | [] => false
  | inst :: rest => inst.Id == instanceID || lbInstancesContain instanceID rest

/-- Embedding of `client.AssignVMToLoadBalancerRule` (network.go lines
194-213). -/
def AssignVMToLoadBalancerRule (cs : CloudStackAPI) (c : CloudStackCluster)
    (instanceID : String) : Option String × List RemoteCall :=
  let calls := [RemoteCall.listLoadBalancerRuleInstances c.Status.LBRuleID]
  match cs.ListLoadBalancerRuleInstances c.Status.LBRuleID with
  | (_, some e) => (some e, calls)
  | (lbRuleInstances, none) =>
    if lbInstancesContain instanceID lbRuleInstances then (none, calls)
    else
      let p : AssignToLoadBalancerRuleParams :=
        { id := c.Status.LBRuleID, virtualmachineids := [instanceID] }
      (cs.AssignToLoadBalancerRule p, calls ++ [RemoteCall.assignToLoadBalancerRule p])

/-- Recognizer for associate-IP remote calls, used to count them. -/
def isAssociateIpCall : RemoteCall → Bool
  | RemoteCall.associateIpAddress _ => true
  | _ => false

/-- Recognizer for create-network remote calls, used to count them. -/
def isCreateNetworkCall : RemoteCall → Bool
  | RemoteCall.createNetwork _ => true
  | _ => false

/-- Recognizer for assign-to-load-balancer remote calls, used to count
them. -/
def isAssignCall : RemoteCall → Bool
  | RemoteCall.assignToLoadBalancerRule _ => true
  | _ => false

end Cloud

namespace Cks

/-- Modelled from the spec: the controller implementing the Machine
Membership State Machine (the CKS machine reconciler, whose source is absent
from src/, only its test being present) keeps, per machine record, the
cleanup-barrier marker, whether the record is still retrievable from the
state store, and the progress of the deletion path. -/
structure MachineRecord where
  retrievable : Bool
  finalizer : Bool
  ready : Bool
  deletionRequested : Bool
  removedFromCks : Bool
  destroyed : Bool
deriving DecidableEq

/-- Observable events of the deletion path: the two remote calls with their
outcome, the removal of the cleanup-barrier marker, and the physical removal
of the record by the state store. -/
inductive CksEvent where
  | removeVMFromCksCluster (ok : Bool)
  | destroyVMInstance (ok : Bool)
  | removeFinalizer
  | physicalDelete
deriving DecidableEq

/-- Modelled from the spec: one reconciliation pass of the deletion path of
the CKS machine reconciler (absent from src/).  Per the spec,
`RemoveVMFromCksCluster` is called first and must succeed (or be retried on
a later pass) before `DestroyVMInstance`; only after both succeed is the
cleanup-barrier marker removed; the state store physically removes the
record only once the marker is gone.  `callOk` is the outcome of the remote
call attempted in this pass. -/
def retireMachine (m : MachineRecord) (callOk : Bool) : MachineRecord × List CksEvent :=
  if !m.deletionRequested || !m.retrievable then (m, [])
  else if !m.removedFromCks then
    ({ m with removedFromCks := callOk }, [CksEvent.removeVMFromCksCluster callOk])
  else if !m.destroyed then
    ({ m with destroyed := callOk }, [CksEvent.destroyVMInstance callOk])
  else if m.finalizer then
    ({ m with finalizer := false }, [CksEvent.removeFinalizer])
  else
    ({ m with retrievable := false }, [CksEvent.physicalDelete])

/-- A sequence of reconciliation passes, one per remote-call outcome,
accumulating the event trace. -/
def retireTrace (m : MachineRecord) : List Bool → MachineRecord × List CksEvent
  | [] => (m, [])
  | ok :: rest =>
    let r := retireMachine m ok
    let r2 := retireTrace r.1 rest
    (r2.1, r.2 ++ r2.2)

/-- Trace acceptor for the ordering claimed of the deletion path: a destroy
event only after a successful CKS removal, the marker removal only after
both calls succeeded, and physical deletion only after the marker removal.
The three flags carry what has been observed so far. -/
def orderedEvents (removed destroyed finRemoved : Bool) : List CksEvent → Bool
  | [] => true
  | CksEvent.removeVMFromCksCluster ok :: rest =>
      orderedEvents (removed || ok) destroyed finRemoved rest
  | CksEvent.destroyVMInstance ok :: rest =>
      removed && orderedEvents removed (destroyed || ok) finRemoved rest
  | CksEvent.removeFinalizer :: rest =>
      removed && destroyed && orderedEvents removed destroyed true rest
  | CksEvent.physicalDelete :: rest =>
      finRemoved && orderedEvents removed destroyed finRemoved rest

/-- State invariant: a record that is gone (or whose marker is gone) had
completed both deletion calls, and a gone record has no marker left. -/
def stateInv (m : MachineRecord) : Bool :=
  (m.retrievable || (!m.finalizer && m.removedFromCks && m.destroyed)) &&
    (m.finalizer || (m.removedFromCks && m.destroyed))

/-- A machine that reached `Ready` (so the cleanup-barrier marker is
attached) and was then marked for deletion. -/
def readyDeletedMachine : MachineRecord :=
  { retrievable := true, finalizer := true, ready := true,
    deletionRequested := true, removedFromCks := false, destroyed := false }

end Cks

namespace Cloud

/-- An all-empty cluster status. -/
def emptyStatus : CloudStackClusterStatus :=
  { ZoneID := "", NetworkID := "", NetworkType := "", PublicIPID := "", LBRuleID := "",
    DomainID := "" }

/-- The cluster fixture of network_test.go: zone1, network name fakeNetName,
control-plane port 6443. -/
def baseCluster : CloudStackCluster :=
  { Spec := { Zone := "zone1", Network := "fakeNetName",
              ControlPlaneEndpoint := { Host := "", Port := 6443 }, Account := "" },
    Status := emptyStatus }

/-- A remote client whose every call fails; concrete scenarios override the
calls they need. -/
def apiBase : CloudStackAPI :=
  { GetNetworkID := fun _ => ("", -1, some ("No match found for blah.")),
    GetNetworkByID := fun _ => ({ Id := "", Typ := "" }, -1, some ("No match found for blah.")),
    GetNetworkOfferingID := fun _ => ("", -1, some ("offering lookup failed")),
    CreateNetwork := fun _ => ({ Id := "", Typ := "" }, some ("create failed")),
    ListPublicIpAddresses := fun _ => ({ Count := 0, PublicIpAddresses := [] }, some ("list failed")),
    AssociateIpAddress := fun _ => some ("associate failed"),
    CreateEgressFirewallRule := fun _ => some ("firewall create failed"),
    ListLoadBalancerRules := fun _ => ([], some ("lb list failed")),
    ListLoadBalancerRuleInstances := fun _ => ([], some ("lb instances failed")),
    AssignToLoadBalancerRule := fun _ => some ("assign failed") }

/-- A cloud on which the name lookup is ambiguous (count 2) but the
follow-up lookup by the returned identity succeeds. -/
def apiAmbiguousName : CloudStackAPI :=
  { apiBase with
    GetNetworkID := fun _ => ("netIdA", 2, none),
    GetNetworkByID := fun id =>
      if id = "netIdA" then ({ Id := "netIdA", Typ := "Isolated" }, 1, none)
      else ({ Id := "", Typ := "" }, -1, some ("No match found for blah.")) }

/-- A cloud on which the name lookup is ambiguous and the follow-up lookup
by identity is ambiguous as well. -/
def apiAmbiguousBoth : CloudStackAPI :=
  { apiBase with
    GetNetworkID := fun _ => ("netIdA", 2, none),
    GetNetworkByID := fun _ => ({ Id := "netIdA", Typ := "Isolated" }, 2, none) }

/-- C1, counterexample: with a count-2 name lookup whose returned identity
then resolves uniquely, `ResolveNetwork` returns a nil error and writes the
status network identity, contradicting the claim that any count other than
1 yields a non-nil error and no status write. -/
theorem resolveNetwork_ambiguity_cex :
    (apiAmbiguousName.GetNetworkID baseCluster.Spec.Network).2.1 = 2 ∧
    (ResolveNetwork apiAmbiguousName baseCluster).1 = [] ∧
    (ResolveNetwork apiAmbiguousName baseCluster).2.1.Status.NetworkID = "netIdA" ∧
    baseCluster.Status.NetworkID ≠ "netIdA" := by
  refine ⟨rfl, rfl, rfl, ?_⟩
  decide

/-- C1, amended: if the name lookup reports a count other than 1 and the
follow-up lookup by the returned identity does not return exactly one
network, `ResolveNetwork` returns a non-nil error and leaves every status
field unchanged; only a uniquely resolving follow-up lookup makes it
succeed. -/
theorem resolveNetwork_ambiguous_fatal (cs : CloudStackAPI) (c : CloudStackCluster)
    (nid : String) (cnt : Int)
    (h1 : cs.GetNetworkID c.Spec.Network = (nid, cnt, none)) (hc : cnt ≠ 1)
    (h2 : (cs.GetNetworkByID nid).2.2 ≠ none ∨ (cs.GetNetworkByID nid).2.1 ≠ 1) :
    (ResolveNetwork cs c).1 ≠ [] ∧ (ResolveNetwork cs c).2.1 = c := by
  rcases hby : cs.GetNetworkByID nid with ⟨net, cnt2, err2⟩
  rw [hby] at h2
  unfold ResolveNetwork
  rw [h1]
  simp only [if_pos hc]
  rw [hby]
  cases err2 with
  | some e2 => simp
  | none =>
    rcases h2 with h2 | h2
    · exact absurd rfl h2
    · simp only at h2
      simp [if_pos h2]

/-- C1, amended claim witness at a concrete ambiguous cloud. -/
theorem resolveNetwork_ambiguous_fatal_witness :
    (ResolveNetwork apiAmbiguousBoth baseCluster).1 ≠ [] ∧
    (ResolveNetwork apiAmbiguousBoth baseCluster).2.1 = baseCluster :=
  resolveNetwork_ambiguous_fatal apiAmbiguousBoth baseCluster "netIdA" 2 rfl
    (by decide) (Or.inr (by decide))

/-- C9: when the name lookup fails with an error and the follow-up lookup
by identity also fails definitively, `ResolveNetwork` returns one compound
error of exactly two causes whose first cause wraps the lookup failure, and
status is unchanged. -/
theorem resolveNetwork_error_aggregation (cs : CloudStackAPI) (c : CloudStackCluster)
    (e1 : String)
    (h1 : (cs.GetNetworkID c.Spec.Network).2.2 = some e1)
    (h2 : (cs.GetNetworkByID c.Spec.Network).2.2 ≠ none ∨
          (cs.GetNetworkByID c.Spec.Network).2.1 ≠ 1) :
    ((ResolveNetwork cs c).1).length = 2 ∧
    (ResolveNetwork cs c).1.head? =
      some (wrapf e1 ("Could not get Network ID from " ++ c.Spec.Network ++ ".")) ∧
    (ResolveNetwork cs c).2.1 = c := by
  rcases hgn : cs.GetNetworkID c.Spec.Network with ⟨nid0, cnt0, err0⟩
  rw [hgn] at h1
  simp only at h1
  subst h1
  rcases hby : cs.GetNetworkByID c.Spec.Network with ⟨net, cnt2, err2⟩
  rw [hby] at h2
  unfold ResolveNetwork
  rw [hgn]
  simp only
  rw [hby]
  cases err2 with
  | some e2 => simp
  | none =>
    rcases h2 with h2 | h2
    · exact absurd rfl h2
    · simp only at h2
      simp [if_pos h2]

/-- C9, witness: both lookups fail on the all-failing cloud. -/
theorem resolveNetwork_error_aggregation_witness :
    ((ResolveNetwork apiBase baseCluster).1).length = 2 ∧
    (ResolveNetwork apiBase baseCluster).1.head? =
      some (wrapf ("No match found for blah.")
        ("Could not get Network ID from " ++ baseCluster.Spec.Network ++ ".")) ∧
    (ResolveNetwork apiBase baseCluster).2.1 = baseCluster :=
  resolveNetwork_error_aggregation apiBase baseCluster ("No match found for blah.") rfl
    (Or.inl (by decide))

/-- A cloud where the configured network value is itself an identity: the
name lookup fails, but the lookup by that identity succeeds (mirrors the
test `resolves network details with network ID instead of network name`). -/
def apiIdFallback : CloudStackAPI :=
  { apiBase with
    GetNetworkByID := fun id =>
      if id = "fakeNetID" then ({ Id := "fakeNetID", Typ := "Isolated" }, 1, none)
      else ({ Id := "", Typ := "" }, -1, some ("No match found for blah.")) }

/-- Cluster whose configured network field holds an identity. -/
def idNetCluster : CloudStackCluster :=
  { baseCluster with Spec := { baseCluster.Spec with Network := "fakeNetID" } }

/-- C10: when the name lookup fails, `ResolveNetwork` retries the lookup
treating the configured network value as an identity; if that returns
exactly one network the operation succeeds and records identity and type in
status. -/
theorem resolveNetwork_id_fallback (cs : CloudStackAPI) (c : CloudStackCluster)
    (net : Network) (e1 : String)
    (h1 : (cs.GetNetworkID c.Spec.Network).2.2 = some e1)
    (h2 : cs.GetNetworkByID c.Spec.Network = (net, 1, none)) :
    (ResolveNetwork cs c).1 = [] ∧
    (ResolveNetwork cs c).2.1.Status.NetworkID = c.Spec.Network ∧
    (ResolveNetwork cs c).2.1.Status.NetworkType = net.Typ ∧
    RemoteCall.getNetworkByID c.Spec.Network ∈ (ResolveNetwork cs c).2.2 := by
  rcases hgn : cs.GetNetworkID c.Spec.Network with ⟨nid0, cnt0, err0⟩
  rw [hgn] at h1
  simp only at h1
  subst h1
  unfold ResolveNetwork
  rw [hgn]
  simp only
  rw [h2]
  simp

/-- The resolve step issues exactly its one list call, whatever the cloud
answers. -/
theorem resolvePublicIP_calls (cs : CloudStackAPI) (c : CloudStackCluster) :
    (ResolvePublicIPDetails cs c).2 =
      [RemoteCall.listPublicIpAddresses (listPublicIpParams c)] := by
  rcases hx : cs.ListPublicIpAddresses (listPublicIpParams c) with ⟨resp, err⟩
  simp only [ResolvePublicIPDetails]
  rw [hx]
  rcases err with _ | e
  · rcases resp with ⟨cnt, addrs⟩
    cases addrs <;> simp only <;> split <;> rfl
  · rfl

/-- The resolve step of `AssociatePublicIpAddress` never issues an
associate call. -/
theorem countAssociate_resolvePublicIP (cs : CloudStackAPI) (c : CloudStackCluster) :
    List.countP isAssociateIpCall (ResolvePublicIPDetails cs c).2 = 0 := by
  rw [resolvePublicIP_calls]
  simp [isAssociateIpCall]

/-- C2, counterexample: a resolved but unallocated public IP whose
associate call fails: `AssociatePublicIpAddress` returns the failure, yet
both the control-plane endpoint host and the status PublicIPID have been
changed by the operation. -/
def apiAssocFail : CloudStackAPI :=
  { apiBase with
    ListPublicIpAddresses := fun _ =>
      ({ Count := 1, PublicIpAddresses :=
          [{ Id := "PublicIPID1", Ipaddress := "192.168.1.14", Allocated := "",
             Associatednetworkid := "" }] }, none) }

/-- C2, counterexample: the associate call fails but the endpoint host and
PublicIPID were already written, refuting write-after-confirm for this
operation. -/
theorem associatePublicIp_write_cex :
    (AssociatePublicIpAddress apiAssocFail baseCluster).1 = some ("associate failed") ∧
    (AssociatePublicIpAddress apiAssocFail baseCluster).2.1.Status.PublicIPID = "PublicIPID1" ∧
    baseCluster.Status.PublicIPID ≠ "PublicIPID1" ∧
    (AssociatePublicIpAddress apiAssocFail baseCluster).2.1.Spec.ControlPlaneEndpoint.Host =
      "192.168.1.14" ∧
    baseCluster.Spec.ControlPlaneEndpoint.Host ≠ "192.168.1.14" := by
  refine ⟨rfl, rfl, ?_, rfl, ?_⟩ <;> decide

/-- C2, amended: `AssociatePublicIpAddress` writes the control-plane
endpoint host and the status PublicIPID as soon as the public IP resolve
step succeeds, before any associate call; if the resolve step fails nothing
is written, but a failing associate call leaves the two fields already set
to the resolved address and identity. -/
theorem associatePublicIp_write_discipline (cs : CloudStackAPI) (c : CloudStackCluster) :
    (∀ e, (ResolvePublicIPDetails cs c).1 = Except.error e →
        (AssociatePublicIpAddress cs c).2.1 = c) ∧
    (∀ pa, (ResolvePublicIPDetails cs c).1 = Except.ok pa →
        (AssociatePublicIpAddress cs c).2.1.Spec.ControlPlaneEndpoint.Host = pa.Ipaddress ∧
        (AssociatePublicIpAddress cs c).2.1.Status.PublicIPID = pa.Id) := by
  rcases hr : ResolvePublicIPDetails cs c with ⟨res, calls⟩
  constructor
  · intro e he
    simp only at he
    subst he
    unfold AssociatePublicIpAddress
    rw [hr]
  · intro pa hpa
    simp only at hpa
    subst hpa
    unfold AssociatePublicIpAddress
    rw [hr]
    simp only
    split
    · exact ⟨rfl, rfl⟩
    · rcases cs.AssociateIpAddress _ with _ | e <;> exact ⟨rfl, rfl⟩

/-- C2, amended claim witness at the concrete failing-associate cloud. -/
theorem associatePublicIp_write_discipline_witness :
    (AssociatePublicIpAddress apiAssocFail baseCluster).2.1.Spec.ControlPlaneEndpoint.Host =
      "192.168.1.14" ∧
    (AssociatePublicIpAddress apiAssocFail baseCluster).2.1.Status.PublicIPID = "PublicIPID1" :=
  (associatePublicIp_write_discipline apiAssocFail baseCluster).2
    { Id := "PublicIPID1", Ipaddress := "192.168.1.14", Allocated := "",
      Associatednetworkid := "" } rfl

/-- C3: for a resolved public IP, the associate call is issued exactly once
when the allocation timestamp is empty, not at all when the timestamp is
non-empty and the associated network is the status network, and exactly
once when the timestamp is non-empty but the network differs. -/
theorem associatePublicIp_call_policy (cs : CloudStackAPI) (c : CloudStackCluster)
    (pa : PublicIpAddress)
    (h : (ResolvePublicIPDetails cs c).1 = Except.ok pa) :
    List.countP isAssociateIpCall (AssociatePublicIpAddress cs c).2.2 =
      (if pa.Allocated = "" then 1
       else if pa.Associatednetworkid = c.Status.NetworkID then 0 else 1) := by
  have hres := countAssociate_resolvePublicIP cs c
  rcases hr : ResolvePublicIPDetails cs c with ⟨res, calls⟩
  rw [hr] at h hres
  simp only at h hres
  subst h
  unfold AssociatePublicIpAddress
  rw [hr]
  simp only
  split
  · next hcond =>
    obtain ⟨ha, hn⟩ := hcond
    rw [if_neg ha, if_pos hn]
    exact hres
  · next hcond =>
    rw [Decidable.not_and_iff_or_not] at hcond
    have hcount : ∀ p : AssociateIpAddressParams,
        List.countP isAssociateIpCall (calls ++ [RemoteCall.associateIpAddress p]) = 1 := by
      intro p
      rw [List.countP_append, hres]
      simp [isAssociateIpCall]
    rcases hcond with ha | hn
    · simp only [ne_eq, not_not] at ha
      rw [if_pos ha]
      rcases cs.AssociateIpAddress _ with _ | e <;> simpa using hcount _
    · by_cases ha : pa.Allocated = ""
      · rw [if_pos ha]
        rcases cs.AssociateIpAddress _ with _ | e <;> simpa using hcount _
      · rw [if_neg ha, if_neg hn]
        rcases cs.AssociateIpAddress _ with _ | e <;> simpa using hcount _

/-- C3, witness: the unallocated concrete public IP is associated exactly
once. -/
theorem associatePublicIp_call_policy_witness :
    List.countP isAssociateIpCall (AssociatePublicIpAddress apiAssocFail baseCluster).2.2 = 1 := by
  have h := associatePublicIp_call_policy apiAssocFail baseCluster
    { Id := "PublicIPID1", Ipaddress := "192.168.1.14", Allocated := "",
      Associatednetworkid := "" } rfl
  rw [h]
  decide

/-- When both lookups resolve uniquely, `ResolveNetwork` succeeds, writes
the resolved identity and type, and issues exactly its two lookup calls. -/
theorem resolveNetwork_success (cs : CloudStackAPI) (c : CloudStackCluster)
    (nid : String) (net : Network)
    (h1 : cs.GetNetworkID c.Spec.Network = (nid, 1, none))
    (h2 : cs.GetNetworkByID nid = (net, 1, none)) :
    ResolveNetwork cs c =
      ([], { c with Status := { c.Status with NetworkID := nid, NetworkType := net.Typ } },
       [RemoteCall.getNetworkID c.Spec.Network, RemoteCall.getNetworkByID nid]) := by
  unfold ResolveNetwork
  rw [h1]
  simp [h2]

/-- A cloud that reports the network as found (the network_test.go
fixtures). -/
def apiNetFound : CloudStackAPI :=
  { apiBase with
    GetNetworkID := fun _ => ("fakeNetID", 1, none),
    GetNetworkByID := fun _ => ({ Id := "fakeNetID", Typ := "Isolated" }, 1, none) }

/-- The cluster after a first successful convergence pass recorded the
network identity and type. -/
def resolvedCluster : CloudStackCluster :=
  { baseCluster with Status :=
      { emptyStatus with NetworkID := "fakeNetID", NetworkType := "Isolated" } }

/-- C4: a second `GetOrCreateNetwork` call on a cloud reporting the network
as found issues no create-network call, succeeds, and leaves the cluster
(and in particular the status network identity) unchanged. -/
theorem getOrCreateNetwork_idempotent (cs : CloudStackAPI) (c : CloudStackCluster)
    (nid : String) (net : Network)
    (h1 : cs.GetNetworkID c.Spec.Network = (nid, 1, none))
    (h2 : cs.GetNetworkByID nid = (net, 1, none))
    (h3 : c.Status.NetworkID = nid) (h4 : c.Status.NetworkType = net.Typ) :
    (GetOrCreateNetwork cs c).1 = [] ∧
    (GetOrCreateNetwork cs c).2.1 = c ∧
    List.countP isCreateNetworkCall (GetOrCreateNetwork cs c).2.2 = 0 := by
  have hres := resolveNetwork_success cs c nid net h1 h2
  have hcl : ({ c with Status := { c.Status with
      NetworkID := nid, NetworkType := net.Typ } } : CloudStackCluster) = c := by
    subst h3
    rw [← h4]
  rw [hcl] at hres
  unfold GetOrCreateNetwork
  rw [hres]
  simp [isCreateNetworkCall]

/-- C4, witness: the found-network cloud at the already-resolved cluster. -/
theorem getOrCreateNetwork_idempotent_witness :
    (GetOrCreateNetwork apiNetFound resolvedCluster).1 = [] ∧
    (GetOrCreateNetwork apiNetFound resolvedCluster).2.1 = resolvedCluster ∧
    List.countP isCreateNetworkCall (GetOrCreateNetwork apiNetFound resolvedCluster).2.2 = 0 :=
  getOrCreateNetwork_idempotent apiNetFound resolvedCluster "fakeNetID"
    { Id := "fakeNetID", Typ := "Isolated" } rfl rfl rfl rfl

/-- C5: a failing create-egress-rule call is downgraded to success exactly
when its error text contains the sentinel, and any other error text is
returned unchanged. -/
theorem openFirewallRules_spec (cs : CloudStackAPI) (c : CloudStackCluster) (e : String)
    (h : cs.CreateEgressFirewallRule { networkid := c.Status.NetworkID, protocol := "tcp" } =
           some e) :
    (OpenFirewallRules cs c).1 =
      if stringsContains e ("There is already") then none else some e := by
  simp only [OpenFirewallRules]
  rw [h]

/-- C5, witness: the already-exists error is downgraded to success. -/
def apiFirewallExists : CloudStackAPI :=
  { apiBase with
    CreateEgressFirewallRule := fun _ => some ("There is already a rule like this.") }

/-- C5, witness theorem at the concrete already-exists cloud. -/
theorem openFirewallRules_spec_witness :
    (OpenFirewallRules apiFirewallExists baseCluster).1 = none := by
  have h := openFirewallRules_spec apiFirewallExists baseCluster
    ("There is already a rule like this.") rfl
  rw [h]
  decide

/-- A rule found by the first-match loop matches the wanted port and is in
the list. -/
theorem findLoadBalancerRule_sound (p : String) :
    ∀ (rules : List LoadBalancerRule) (rule : LoadBalancerRule),
      findLoadBalancerRule p rules = some rule → rule.Publicport = p ∧ rule ∈ rules := by
  intro rules
  induction rules with
  | nil => intro rule h; simp [findLoadBalancerRule] at h
  | cons r rest ih =>
    intro rule h
    by_cases hp : r.Publicport = p
    · rw [findLoadBalancerRule, if_pos hp] at h
      obtain rfl : r = rule := by simpa using h
      exact ⟨hp, List.mem_cons_self r rest⟩
    · rw [findLoadBalancerRule, if_neg hp] at h
      obtain ⟨h1, h2⟩ := ih rule h
      exact ⟨h1, List.mem_cons_of_mem r h2⟩

/-- When no rule carries the wanted port, the first-match loop finds
nothing. -/
theorem findLoadBalancerRule_none (p : String) :
    ∀ rules : List LoadBalancerRule,
      (∀ rule ∈ rules, rule.Publicport ≠ p) → findLoadBalancerRule p rules = none := by
  intro rules
  induction rules with
  | nil => intro _; rfl
  | cons r rest ih =>
    intro h
    rw [findLoadBalancerRule, if_neg (h r (List.mem_cons_self r rest))]
    exact ih fun rule hr => h rule (List.mem_cons_of_mem r hr)

/-- C6: `ResolveLoadBalancerRuleDetails` selects the first listed rule
whose public-port string equals the decimal string of the desired
control-plane port and records its identity in status; when no rule
matches it returns the distinguishable not-found error. -/
theorem resolveLoadBalancerRuleDetails_spec (cs : CloudStackAPI) (c : CloudStackCluster)
    (rules : List LoadBalancerRule)
    (h : cs.ListLoadBalancerRules (listLBRulesParams c) = (rules, none)) :
    (∀ rule, findLoadBalancerRule (toString c.Spec.ControlPlaneEndpoint.Port) rules =
          some rule →
        (ResolveLoadBalancerRuleDetails cs c).1 = none ∧
        (ResolveLoadBalancerRuleDetails cs c).2.1.Status.LBRuleID = rule.Id ∧
        rule.Publicport = toString c.Spec.ControlPlaneEndpoint.Port ∧ rule ∈ rules) ∧
    ((∀ rule ∈ rules, rule.Publicport ≠ toString c.Spec.ControlPlaneEndpoint.Port) →
        (ResolveLoadBalancerRuleDetails cs c).1 = some ("no load balancer rule found") ∧
        (ResolveLoadBalancerRuleDetails cs c).2.1 = c) := by
  constructor
  · intro rule hf
    obtain ⟨hport, hmem⟩ := findLoadBalancerRule_sound _ rules rule hf
    simp only [ResolveLoadBalancerRuleDetails]
    rw [h]
    simp only
    rw [hf]
    exact ⟨rfl, rfl, hport, hmem⟩
  · intro hall
    simp only [ResolveLoadBalancerRuleDetails]
    rw [h]
    simp only
    rw [findLoadBalancerRule_none _ rules hall]
    exact ⟨rfl, rfl⟩

/-- A cloud listing two load-balancer rules with ports 7443 and 6443. -/
def apiTwoLBRules : CloudStackAPI :=
  { apiBase with
    ListLoadBalancerRules := fun _ =>
      ([{ Id := "rule7443", Publicport := "7443" },
        { Id := "rule6443", Publicport := "6443" }], none) }

/-- C6, witness: with ports 7443 and 6443 listed and desired port 6443, the
6443 rule is selected and recorded. -/
theorem resolveLoadBalancerRuleDetails_spec_witness :
    (ResolveLoadBalancerRuleDetails apiTwoLBRules baseCluster).1 = none ∧
    (ResolveLoadBalancerRuleDetails apiTwoLBRules baseCluster).2.1.Status.LBRuleID =
      "rule6443" := by
  have h := (resolveLoadBalancerRuleDetails_spec apiTwoLBRules baseCluster
      [{ Id := "rule7443", Publicport := "7443" },
       { Id := "rule6443", Publicport := "6443" }] rfl).1
      { Id := "rule6443", Publicport := "6443" } (by decide)
  exact ⟨h.1, h.2.1⟩

/-- A membership witness makes the backend-instance loop answer true. -/
theorem lbInstancesContain_of_mem (instanceID : String) :
    ∀ insts : List LoadBalancerRuleInstance,
      (∃ inst ∈ insts, inst.Id = instanceID) → lbInstancesContain instanceID insts = true := by
  intro insts
  induction insts with
  | nil => rintro ⟨inst, hmem, _⟩; exact absurd hmem (List.not_mem_nil inst)
  | cons i rest ih =>
    rintro ⟨inst, hmem, hid⟩
    rw [lbInstancesContain]
    rcases List.mem_cons.mp hmem with rfl | hmem2
    · simp [hid]
    · rw [ih ⟨inst, hmem2, hid⟩]
      simp

/-- C7: when the backend list of the rule already contains the target
instance,
`AssignVMToLoadBalancerRule` succeeds and issues no assignment call; hence
a second invocation with the instance still present issues zero additional
assignment calls. -/
theorem assignVM_idempotent (cs : CloudStackAPI) (c : CloudStackCluster)
    (instanceID : String) (insts : List LoadBalancerRuleInstance)
    (h : cs.ListLoadBalancerRuleInstances c.Status.LBRuleID = (insts, none))
    (hmem : ∃ inst ∈ insts, inst.Id = instanceID) :
    (AssignVMToLoadBalancerRule cs c instanceID).1 = none ∧
    List.countP isAssignCall (AssignVMToLoadBalancerRule cs c instanceID).2 = 0 := by
  simp only [AssignVMToLoadBalancerRule]
  rw [h]
  simp only
  rw [lbInstancesContain_of_mem instanceID insts hmem]
  simp [isAssignCall]

/-- A cloud whose load-balancer rule already lists instance1 as backend. -/
def apiInstancePresent : CloudStackAPI :=
  { apiBase with
    ListLoadBalancerRuleInstances := fun _ => ([{ Id := "instance1" }], none) }

/-- C7, witness: the already-assigned instance leads to success with zero
assignment calls. -/
theorem assignVM_idempotent_witness :
    (AssignVMToLoadBalancerRule apiInstancePresent baseCluster "instance1").1 = none ∧
    List.countP isAssignCall
      (AssignVMToLoadBalancerRule apiInstancePresent baseCluster "instance1").2 = 0 :=
  assignVM_idempotent apiInstancePresent baseCluster "instance1" [{ Id := "instance1" }]
    rfl ⟨{ Id := "instance1" }, by simp, rfl⟩

/-- C10, witness: the lookup-by-identity fallback at the concrete test
fixture. -/
theorem resolveNetwork_id_fallback_witness :
    (ResolveNetwork apiIdFallback idNetCluster).1 = [] ∧
    (ResolveNetwork apiIdFallback idNetCluster).2.1.Status.NetworkID =
      idNetCluster.Spec.Network ∧
    (ResolveNetwork apiIdFallback idNetCluster).2.1.Status.NetworkType = "Isolated" ∧
    RemoteCall.getNetworkByID idNetCluster.Spec.Network ∈
      (ResolveNetwork apiIdFallback idNetCluster).2.2 :=
  resolveNetwork_id_fallback apiIdFallback idNetCluster
    { Id := "fakeNetID", Typ := "Isolated" } ("No match found for blah.") rfl (by decide)

end Cloud

namespace Cks

/-- One reconciliation pass preserves the deletion-path state invariant. -/
theorem stateInv_step : ∀ rt fin rd del rem des ok : Bool,
    stateInv { retrievable := rt, finalizer := fin, ready := rd, deletionRequested := del,
               removedFromCks := rem, destroyed := des } = true →
    stateInv (retireMachine
      { retrievable := rt, finalizer := fin, ready := rd, deletionRequested := del,
        removedFromCks := rem, destroyed := des } ok).1 = true := by
  decide

/-- The invariant is preserved along any sequence of passes. -/
theorem stateInv_retireTrace : ∀ (oks : List Bool) (m : MachineRecord),
    stateInv m = true → stateInv (retireTrace m oks).1 = true := by
  intro oks
  induction oks with
  | nil => intro m h; exact h
  | cons ok rest ih =>
    intro m h
    obtain ⟨rt, fin, rd, del, rem, des⟩ := m
    exact ih _ (stateInv_step rt fin rd del rem des ok h)

/-- Every event trace of the deletion path passes the ordering acceptor,
started at the flags the machine record already carries. -/
theorem orderedEvents_retireTrace : ∀ (oks : List Bool) (m : MachineRecord) (r d f : Bool),
    r = m.removedFromCks → d = m.destroyed → f = !m.finalizer →
    orderedEvents r d f (retireTrace m oks).2 = true := by
  intro oks
  induction oks with
  | nil =>
    intro m r d f hr hd hf
    rfl
  | cons ok rest ih =>
    intro m r d f hr hd hf
    obtain ⟨rt, fin, rd2, del, rem, des⟩ := m
    cases rt <;> cases fin <;> cases rd2 <;> cases del <;> cases rem <;> cases des <;>
        cases ok <;>
      subst hr hd hf <;>
      simp only [retireTrace, retireMachine, orderedEvents, Bool.not_false, Bool.not_true,
        Bool.false_or, Bool.true_or, Bool.or_false, Bool.or_true, Bool.true_and,
        Bool.false_and, List.nil_append, List.cons_append, List.append_nil,
        Bool.or_self, if_true, if_false, ite_true, ite_false] <;>
      exact ih _ _ _ _ rfl rfl rfl

/-- C8: from a Ready machine marked for deletion, along every sequence of
reconciliation passes, any destroy event is preceded by a successful CKS
removal, the cleanup-barrier marker is removed only after both calls
succeeded, physical deletion happens only after the marker removal, and the
resulting record state keeps the record retrievable while the marker is
present. -/
theorem cksMachine_deletion_ordering (oks : List Bool) :
    orderedEvents false false false (retireTrace readyDeletedMachine oks).2 = true ∧
    stateInv (retireTrace readyDeletedMachine oks).1 = true :=
  ⟨orderedEvents_retireTrace oks readyDeletedMachine false false false rfl rfl rfl,
   stateInv_retireTrace oks readyDeletedMachine (by decide)⟩

end Cks
